import Mathlib

/-!
Verification of the Soroban-Registry patch rollout / migration subsystem and
of the contract-registry HTTP handlers.

The patch rollout and migration core (the CLI's `patch` / `commands` modules,
declared in `cli/src/main.rs` but whose source is not part of this tree) is
modelled from the specification; the contract HTTP handlers are embedded
directly from `backend/api/src/handlers.rs`.
-/

/- ## Core data model (patch rollout / migration subsystem) -/

/-- Modelled from the spec: severity enum of `cli/src/patch.rs` (missing from
the tree), §4.1: closed enum with total order Low < Medium < High < Critical. -/
inductive Severity
  | Low
  | Medium
  | High
  | Critical
deriving DecidableEq

/-- Modelled from the spec: patch status, §3: {Draft, RollingOut, Complete,
Withdrawn}. -/
inductive PatchStatus
  | Draft
  | RollingOut
  | Complete
  | Withdrawn
deriving DecidableEq

/-- Modelled from the spec: migration outcome, §3: {Applied, RolledBack,
Failed, Previewed}. -/
inductive Outcome
  | Applied
  | RolledBack
  | Failed
  | Previewed
deriving DecidableEq

/-- Modelled from the spec: the Patch record, §3. -/
structure Patch where
  id : String
  target_version : String
  bytecode_hash : String
  severity : Severity
  rollout_percentage : Nat
  status : PatchStatus
  created_at : Nat
deriving DecidableEq

/-- Modelled from the spec: the Contract record owned by the external
registry, §3: id, current_wasm_hash, current_version, publisher_id. -/
structure Contract where
  id : String
  current_wasm_hash : String
  current_version : String
  publisher_id : String
deriving DecidableEq

/-- Modelled from the spec: the MigrationRecord audit entry, §3. -/
structure MigrationRecord where
  contract_id : String
  patch_id : Option String
  dry_run : Bool
  simulate_fail : Bool
  outcome : Outcome
  timestamp : Nat
deriving DecidableEq

/- ## RolloutCohortCalculator -/

/-- Modelled from the spec: the "stable 64-bit hash" of §4.2, realised as
FNV-1a over the bytes of the input, with 64-bit wrap-around arithmetic. -/
def fnv1a64 (s : List Char) : Nat :=
  s.foldl (fun h ch => ((h ^^^ ch.toNat % 256) * 1099511628211) % 2 ^ 64)
    14695981039346656037

/-- Modelled from the spec, §4.2: the stable bucket in [0,100) for a
(contract, patch) pair: the digest of the concatenation of `contract_id` and
`patch_id`, reduced modulo 100. -/
def bucket (contract_id patch_id : String) : Nat :=
  fnv1a64 (contract_id ++ patch_id).data % 100

/-- Modelled from the spec, §4.2: `in_cohort(contract_id, patch_id,
rollout_percentage)` returns `bucket < rollout_percentage`. -/
def in_cohort (contract_id patch_id : String) (rollout_percentage : Nat) : Bool :=
  bucket contract_id patch_id < rollout_percentage

/- ## Registry state -/

/-- Modelled from the spec: the authoritative store behind RegistryClient,
§6: contract rows, patch rows, and the append-only migration audit log. -/
structure RegistryState where
  contracts : String → Option Contract
  patches : String → Option Patch
  migrations : List MigrationRecord

/-- Modelled from the spec, §4.2: the cohort check as a component invoked
against a registry state; it "has no I/O and no shared mutable state", so it
reads nothing from the state and returns it untouched. -/
def in_cohort_query (st : RegistryState) (contract_id patch_id : String)
    (rollout_percentage : Nat) : Bool × RegistryState :=
  (in_cohort contract_id patch_id rollout_percentage, st)

/- ## MigrationEngine -/

/-- Modelled from the spec, §4.5: the target of a migration — a patch id, or
an explicit artifact (hash and version) as used by the bare `migrate`
command. -/
inductive MigrationTarget
  | patchTarget (patch_id : String)
  | artifact (wasm_hash : String) (version : String)
deriving DecidableEq

/-- Modelled from the spec, §7: the error kinds the engine and the registry
surface to callers. -/
inductive CoreError
  | ContractNotFound
  | PatchNotFound
  | NotInRolloutCohort
  | RolloutRegression
  | InvalidRollout
deriving DecidableEq

/-- Modelled from the spec, §3/§4.5 step 2: a record witnessing that a
non-dry-run apply of `patch_id` to `contract_id` already happened. -/
def is_applied_for (r : MigrationRecord) (contract_id patch_id : String) : Bool :=
  decide (r.contract_id = contract_id ∧ r.patch_id = some patch_id ∧
    r.dry_run = false ∧ r.outcome = Outcome.Applied)

/-- Modelled from the spec, §6 `find_migration`: the existing non-dry-run
Applied record for a (contract, patch) pair, when there is one. -/
def applied_record? (ms : List MigrationRecord) (contract_id patch_id : String) :
    Option MigrationRecord :=
  ms.find? (fun r => is_applied_for r contract_id patch_id)

/-- Modelled from the spec, §6 `record_migration`: append an audit entry. -/
def record_migration (st : RegistryState) (mr : MigrationRecord) : RegistryState :=
  { st with migrations := mr :: st.migrations }

/-- Modelled from the spec, §6 `write_contract_version`: overwrite the
contract row. -/
def write_contract (st : RegistryState) (contract_id : String) (c : Contract) :
    RegistryState :=
  { st with contracts := fun k => if k == contract_id then some c else st.contracts k }

/-- Modelled from the spec, §4.5: `migrate(contract_id, target, dry_run,
simulate_fail)` — validate (step 1), idempotence check (step 2), cohort check
unless dry-run (step 3), preview (step 4) or apply / simulated failure
(steps 5–6), with the contract write as the last step. `now` is the
timestamp stamped on a freshly created audit record. -/
def migrate (st : RegistryState) (contract_id : String) (target : MigrationTarget)
    (dry_run simulate_fail : Bool) (now : Nat) :
    Except CoreError MigrationRecord × RegistryState :=
  match st.contracts contract_id with
  | none => (Except.error CoreError.ContractNotFound, st)
  | some con =>
    match target with
    | MigrationTarget.patchTarget patch_id =>
      match st.patches patch_id with
      | none => (Except.error CoreError.PatchNotFound, st)
      | some pa =>
        match applied_record? st.migrations contract_id patch_id with
        | some prior => (Except.ok prior, st)
        | none =>
          if !dry_run && !in_cohort contract_id patch_id pa.rollout_percentage then
            (Except.error CoreError.NotInRolloutCohort, st)
          else if dry_run then
            let mr : MigrationRecord :=
              ⟨contract_id, some patch_id, true, simulate_fail, Outcome.Previewed, now⟩
            (Except.ok mr, record_migration st mr)
          else if simulate_fail then
            let mr : MigrationRecord :=
              ⟨contract_id, some patch_id, false, true, Outcome.Failed, now⟩
            (Except.ok mr, record_migration st mr)
          else
            let mr : MigrationRecord :=
              ⟨contract_id, some patch_id, false, false, Outcome.Applied, now⟩
            (Except.ok mr,
              record_migration
                (write_contract st contract_id
                  { con with current_wasm_hash := pa.bytecode_hash,
                             current_version := pa.target_version }) mr)
    | MigrationTarget.artifact wasm_hash version =>
      if dry_run then
        let mr : MigrationRecord :=
          ⟨contract_id, none, true, simulate_fail, Outcome.Previewed, now⟩
        (Except.ok mr, record_migration st mr)
      else if simulate_fail then
        let mr : MigrationRecord :=
          ⟨contract_id, none, false, true, Outcome.Failed, now⟩
        (Except.ok mr, record_migration st mr)
      else
        let mr : MigrationRecord :=
          ⟨contract_id, none, false, false, Outcome.Applied, now⟩
        (Except.ok mr,
          record_migration
            (write_contract st contract_id
              { con with current_wasm_hash := wasm_hash,
                         current_version := version }) mr)

/- ## PatchRegistry -/

/-- Modelled from the spec, §4.3 `set_rollout(patch_id, new_rollout)`: fails
with PatchNotFound on an unknown patch and with RolloutRegression when
`new_rollout` is below the current percentage (state unchanged in both
cases); otherwise persists the new percentage, moving the status to Complete
when it reaches 100 and to RollingOut when it is positive. -/
def set_rollout (st : RegistryState) (patch_id : String) (new_rollout : Nat) :
    Except CoreError Patch × RegistryState :=
  match st.patches patch_id with
  | none => (Except.error CoreError.PatchNotFound, st)
  | some pa =>
    if new_rollout < pa.rollout_percentage then
      (Except.error CoreError.RolloutRegression, st)
    else if 100 < new_rollout then
      (Except.error CoreError.InvalidRollout, st)
    else
      let pa' : Patch :=
        { pa with rollout_percentage := new_rollout,
                  status :=
                    if new_rollout == 100 then PatchStatus.Complete
                    else if new_rollout == 0 then pa.status
                    else PatchStatus.RollingOut }
      (Except.ok pa',
        { st with patches := fun k => if k == patch_id then some pa' else st.patches k })

/- ## Concrete example states -/

/-- A sample contract row. -/
def exContract : Contract := ⟨"c1", "hash0", "0.9.0", "pub1"⟩

/-- A sample patch at full rollout. -/
def exPatch : Patch := ⟨"p1", "1.2.0", "abc123", Severity.High, 100, PatchStatus.RollingOut, 0⟩

/-- A sample non-dry-run Applied audit record for (c1, p1). -/
def exApplied : MigrationRecord := ⟨"c1", some "p1", false, false, Outcome.Applied, 1⟩

/-- A registry state in which patch p1 was already applied to contract c1. -/
def exState : RegistryState :=
  ⟨fun k => if k == "c1" then some exContract else none,
   fun k => if k == "p1" then some exPatch else none,
   [exApplied]⟩

/-- The same registry state with an empty audit log. -/
def exStateFresh : RegistryState := { exState with migrations := [] }

/- ## HTTP handlers, embedded from backend/api/src/handlers.rs -/

/-- Embedded from handlers.rs lines 15–20: the ApiError payload (HTTP status,
error code, message). -/
structure ApiError where
  status : Nat
  code : String
  message : String
deriving DecidableEq

/-- Embedded from handlers.rs line 35: a 400 Bad Request error. -/
def ApiError.bad_request (code message : String) : ApiError := ⟨400, code, message⟩

/-- Embedded from handlers.rs line 39: a 404 Not Found error. -/
def ApiError.not_found (code message : String) : ApiError := ⟨404, code, message⟩

/-- A row of the `contracts` table, reduced to what the verified handlers
inspect: its identity and the nullable `abi` column; `payload` stands for the
remaining columns returned whole by `get_contract`. -/
structure ContractRow where
  id : Nat
  abi : Option String
  payload : String
deriving DecidableEq

/-- Embedded from handlers.rs lines 220–236: `get_contract` runs
SELECT * FROM contracts WHERE id = $1 (the id is a bound parameter) and maps
sqlx RowNotFound to a 404 ContractNotFound. The database is modelled as a
map from id to row; a missing key is RowNotFound. -/
def get_contract (db : Nat → Option ContractRow) (id : Nat) :
    Except ApiError ContractRow :=
  match db id with
  | some c => Except.ok c
  | none =>
    Except.error
      (ApiError.not_found "ContractNotFound" ("No contract found with ID: " ++ toString id))

/-- Embedded from handlers.rs lines 238–257: `get_contract_abi` runs
SELECT abi FROM contracts WHERE id = $1; RowNotFound maps to 404
ContractNotFound, a row whose abi column is NULL maps to 404 AbiNotFound,
otherwise the ABI JSON is returned. -/
def get_contract_abi (db : Nat → Option ContractRow) (id : Nat) :
    Except ApiError String :=
  match db id with
  | none =>
    Except.error
      (ApiError.not_found "ContractNotFound" ("No contract found with ID: " ++ toString id))
  | some row =>
    match row.abi with
    | none => Except.error (ApiError.not_found "AbiNotFound" "Contract has no ABI")
    | some a => Except.ok a

/-- Embedded from handlers.rs line 133 (shared::ContractSearchParams as the
handler consumes it): the query-string parameters of `list_contracts`. -/
structure ContractSearchParams where
  query : Option String
  verified_only : Option Bool
  category : Option String
  page : Option Int
  limit : Option Int

/-- Rust's `x.clamp(lo, hi)`: lo when x < lo, hi when x > hi, else x. -/
def rust_clamp (x lo hi : Int) : Int :=
  if x < lo then lo else if x > hi then hi else x

/-- The pagination values `list_contracts` computes before touching the
database (handlers.rs lines 140–148). -/
structure Pagination where
  page : Int
  limit : Int
  offset : Int
deriving DecidableEq

/-- Embedded from handlers.rs lines 140–148: page defaults to 1, limit
defaults to 20 and is clamped to [1,100], a page below 1 is rejected with
InvalidPagination, and the offset is (page - 1) * limit. -/
def paginate (page? limit? : Option Int) : Except ApiError Pagination :=
  let page := page?.getD 1
  let limit := rust_clamp (limit?.getD 20) 1 100
  if page < 1 then
    Except.error (ApiError.bad_request "InvalidPagination" "page must be >= 1")
  else
    Except.ok ⟨page, limit, (page - 1) * limit⟩

/-- Embedded from handlers.rs lines 154–158: the search filter pushed onto
both queries when a query parameter is present — the parameter is
interpolated into the ILIKE patterns, not bound. -/
def search_filter (q : Option String) : String :=
  match q with
  | some s => " AND (name ILIKE '%" ++ s ++ "%' OR description ILIKE '%" ++ s ++ "%')"
  | none => ""

/-- Embedded from handlers.rs lines 160–165: the verified-only filter. -/
def verified_filter (v : Option Bool) : String :=
  match v with
  | some true => " AND is_verified = true"
  | _ => ""

/-- Embedded from handlers.rs lines 167–171: the category filter — the
parameter is interpolated into the equality clause, not bound. -/
def category_filter (c : Option String) : String :=
  match c with
  | some cat => " AND category = '" ++ cat ++ "'"
  | none => ""

/-- Embedded from handlers.rs lines 151–176: the dynamically built SQL text
of the SELECT query and of the COUNT query, in the order the handler pushes
the clauses. -/
def build_queries (p : ContractSearchParams) (limit offset : Int) : String × String :=
  ("SELECT * FROM contracts WHERE 1=1" ++
      search_filter p.query ++ verified_filter p.verified_only ++
      category_filter p.category ++
      " ORDER BY created_at DESC LIMIT " ++ toString limit ++
      " OFFSET " ++ toString offset,
    "SELECT COUNT(*) FROM contracts WHERE 1=1" ++
      search_filter p.query ++ verified_filter p.verified_only ++
      category_filter p.category)

/-- Embedded from handlers.rs lines 131–186: `list_contracts` up to the point
where it executes SQL — it validates pagination (returning InvalidPagination
with no query ever built or run) and otherwise produces the two SQL strings
it hands to sqlx. -/
def list_contracts (p : ContractSearchParams) : Except ApiError (String × String) :=
  match paginate p.page p.limit with
  | Except.error e => Except.error e
  | Except.ok pg => Except.ok (build_queries p pg.limit pg.offset)

/- ## Concrete handler inputs -/

/-- A contracts-table row with an ABI. -/
def exRow : ContractRow := ⟨1, some "[]", "row-1"⟩

/-- A contracts-table row whose abi column is NULL. -/
def exRowNoAbi : ContractRow := ⟨2, none, "row-2"⟩

/-- A two-row contracts table. -/
def exDb : Nat → Option ContractRow :=
  fun id => if id == 1 then some exRow else if id == 2 then some exRowNoAbi else none

/-- Search parameters with both interpolated fields present. -/
def exParams : ContractSearchParams :=
  ⟨some "usdc", some true, some "token", none, none⟩

/-- Search parameters with an invalid page. -/
def exParamsBadPage : ContractSearchParams := ⟨none, none, none, some 0, some 50⟩

/- ## Theorems: cohort calculator -/

/-- C1: cohort membership is monotone in the rollout percentage: whenever
`in_cohort contract_id patch_id P1` holds and `P1 < P2`, `in_cohort
contract_id patch_id P2` holds as well, so the cohort at P2 is a superset of
the cohort at P1. -/
theorem in_cohort_monotone (contract_id patch_id : String) (P1 P2 : Nat)
    (hlt : P1 < P2) (h : in_cohort contract_id patch_id P1 = true) :
    in_cohort contract_id patch_id P2 = true := by
  simp only [in_cohort, decide_eq_true_eq] at h ⊢
  omega

/-- Witness for C1 at a concrete contract and patch id. -/
theorem in_cohort_monotone_witness :
    (59 < 60 ∧ in_cohort "CDEADBEEF" "patch-1" 59 = true) ∧
      in_cohort "CDEADBEEF" "patch-1" 60 = true :=
  ⟨⟨by decide, by decide⟩,
    in_cohort_monotone "CDEADBEEF" "patch-1" 59 60 (by decide) (by decide)⟩

/-- C6: `in_cohort` is a deterministic pure function: invoked against any two
registry states with identical arguments it returns the identical boolean,
and it never changes the state it is invoked against — no hidden state, no
randomness. -/
theorem in_cohort_deterministic (st st' : RegistryState)
    (contract_id patch_id : String) (rollout_percentage : Nat) :
    (in_cohort_query st contract_id patch_id rollout_percentage).1 =
        (in_cohort_query st' contract_id patch_id rollout_percentage).1 ∧
      (in_cohort_query st contract_id patch_id rollout_percentage).2 = st :=
  ⟨rfl, rfl⟩

/- ## Helper lemmas: migration engine branches -/

lemma applied_record_cons_self (ms : List MigrationRecord) (cid pid : String)
    (mr : MigrationRecord) (h : is_applied_for mr cid pid = true) :
    applied_record? (mr :: ms) cid pid = some mr := by
  unfold applied_record?
  exact List.find?_cons_of_pos ms h

lemma is_applied_for_self (cid pid : String) (sf : Bool) (t : Nat) :
    is_applied_for ⟨cid, some pid, false, sf, Outcome.Applied, t⟩ cid pid = true := by
  simp [is_applied_for]

lemma migrate_prior_run (st : RegistryState) (cid pid : String) (con : Contract)
    (pa : Patch) (prior : MigrationRecord) (d sf : Bool) (t : Nat)
    (hc : st.contracts cid = some con) (hp : st.patches pid = some pa)
    (hprior : applied_record? st.migrations cid pid = some prior) :
    migrate st cid (MigrationTarget.patchTarget pid) d sf t = (Except.ok prior, st) := by
  simp only [migrate, hc, hp, hprior]

lemma migrate_fresh_apply (st : RegistryState) (cid pid : String) (con : Contract)
    (pa : Patch) (t : Nat)
    (hc : st.contracts cid = some con) (hp : st.patches pid = some pa)
    (hnone : applied_record? st.migrations cid pid = none)
    (hcoh : in_cohort cid pid pa.rollout_percentage = true) :
    migrate st cid (MigrationTarget.patchTarget pid) false false t =
      (Except.ok (⟨cid, some pid, false, false, Outcome.Applied, t⟩ : MigrationRecord),
        record_migration
          (write_contract st cid
            { con with current_wasm_hash := pa.bytecode_hash,
                       current_version := pa.target_version })
          ⟨cid, some pid, false, false, Outcome.Applied, t⟩) := by
  simp only [migrate, hc, hp, hnone, hcoh]
  simp

lemma migrate_fresh_simulate_fail (st : RegistryState) (cid pid : String)
    (con : Contract) (pa : Patch) (t : Nat)
    (hc : st.contracts cid = some con) (hp : st.patches pid = some pa)
    (hnone : applied_record? st.migrations cid pid = none)
    (hcoh : in_cohort cid pid pa.rollout_percentage = true) :
    migrate st cid (MigrationTarget.patchTarget pid) false true t =
      (Except.ok (⟨cid, some pid, false, true, Outcome.Failed, t⟩ : MigrationRecord),
        record_migration st ⟨cid, some pid, false, true, Outcome.Failed, t⟩) := by
  simp only [migrate, hc, hp, hnone, hcoh]
  simp

lemma migrate_simulate_fail_contracts_frame (st : RegistryState) (cid : String)
    (target : MigrationTarget) (t : Nat) :
    ((migrate st cid target false true t).2).contracts = st.contracts := by
  cases hc : st.contracts cid with
  | none => simp [migrate, hc]
  | some con =>
    cases target with
    | patchTarget pid =>
      cases hp : st.patches pid with
      | none => simp [migrate, hc, hp]
      | some pa =>
        cases hprior : applied_record? st.migrations cid pid with
        | some prior => simp [migrate, hc, hp, hprior]
        | none =>
          cases hcoh : in_cohort cid pid pa.rollout_percentage with
          | false => simp [migrate, hc, hp, hprior, hcoh]
          | true => simp [migrate, hc, hp, hprior, hcoh, record_migration]
    | artifact wasm_hash version => simp [migrate, hc, record_migration]

/- ## Theorems: migration engine and patch registry -/

/-- C2: non-dry-run apply is idempotent: starting from a state with no
non-dry-run Applied record for the pair, two `migrate` calls with identical
(contract_id, patch_id), dry_run=false and simulate_fail=false return the
same MigrationRecord; the second call leaves the state exactly as the first
left it (so the Contract row is written exactly once), and exactly one
non-dry-run Applied record for the pair exists afterwards. -/
theorem migrate_apply_idempotent
    (st : RegistryState) (cid pid : String) (con : Contract) (pa : Patch) (t1 t2 : Nat)
    (hc : st.contracts cid = some con)
    (hp : st.patches pid = some pa)
    (hcoh : in_cohort cid pid pa.rollout_percentage = true)
    (hnone : applied_record? st.migrations cid pid = none) :
    ∃ mr : MigrationRecord,
      (migrate st cid (MigrationTarget.patchTarget pid) false false t1).1 = Except.ok mr ∧
      migrate (migrate st cid (MigrationTarget.patchTarget pid) false false t1).2 cid
          (MigrationTarget.patchTarget pid) false false t2 =
        (Except.ok mr, (migrate st cid (MigrationTarget.patchTarget pid) false false t1).2) ∧
      (migrate st cid (MigrationTarget.patchTarget pid) false false t1).2.contracts cid =
        some { con with current_wasm_hash := pa.bytecode_hash,
                        current_version := pa.target_version } ∧
      ((migrate st cid (MigrationTarget.patchTarget pid) false false t1).2.migrations.filter
          (fun r => is_applied_for r cid pid)).length = 1 := by
  have h1 := migrate_fresh_apply st cid pid con pa t1 hc hp hnone hcoh
  have hst1 : (migrate st cid (MigrationTarget.patchTarget pid) false false t1).2 =
      record_migration
        (write_contract st cid
          { con with current_wasm_hash := pa.bytecode_hash,
                     current_version := pa.target_version })
        ⟨cid, some pid, false, false, Outcome.Applied, t1⟩ := by rw [h1]
  refine ⟨⟨cid, some pid, false, false, Outcome.Applied, t1⟩, by rw [h1], ?_, ?_, ?_⟩
  · have hc1 : (record_migration
        (write_contract st cid
          { con with current_wasm_hash := pa.bytecode_hash,
                     current_version := pa.target_version })
        ⟨cid, some pid, false, false, Outcome.Applied, t1⟩).contracts cid =
        some { con with current_wasm_hash := pa.bytecode_hash,
                        current_version := pa.target_version } := by
      simp [record_migration, write_contract]
    have hfound : applied_record?
        (record_migration
          (write_contract st cid
            { con with current_wasm_hash := pa.bytecode_hash,
                       current_version := pa.target_version })
          ⟨cid, some pid, false, false, Outcome.Applied, t1⟩).migrations cid pid =
        some ⟨cid, some pid, false, false, Outcome.Applied, t1⟩ :=
      applied_record_cons_self _ _ _ _ (is_applied_for_self cid pid false t1)
    rw [hst1]
    exact migrate_prior_run _ cid pid _ pa _ false false t2 hc1 hp hfound
  · rw [hst1]
    simp [record_migration, write_contract]
  · rw [hst1]
    have hnil : st.migrations.filter (fun r => is_applied_for r cid pid) = [] := by
      rw [List.filter_eq_nil_iff]
      intro a ha
      exact List.find?_eq_none.mp hnone a ha
    show (((⟨cid, some pid, false, false, Outcome.Applied, t1⟩ : MigrationRecord) ::
        st.migrations).filter (fun r => is_applied_for r cid pid)).length = 1
    rw [List.filter_cons_of_pos (p := fun r => is_applied_for r cid pid)
      (is_applied_for_self cid pid false t1), hnil]
    rfl

/-- Witness for C2 at a concrete fresh registry state. -/
theorem migrate_apply_idempotent_witness :
    (exStateFresh.contracts "c1" = some exContract ∧
      exStateFresh.patches "p1" = some exPatch ∧
      in_cohort "c1" "p1" exPatch.rollout_percentage = true ∧
      applied_record? exStateFresh.migrations "c1" "p1" = none) ∧
    ∃ mr : MigrationRecord,
      (migrate exStateFresh "c1" (MigrationTarget.patchTarget "p1") false false 3).1 =
        Except.ok mr ∧
      migrate (migrate exStateFresh "c1" (MigrationTarget.patchTarget "p1") false false 3).2
          "c1" (MigrationTarget.patchTarget "p1") false false 4 =
        (Except.ok mr,
          (migrate exStateFresh "c1" (MigrationTarget.patchTarget "p1") false false 3).2) ∧
      (migrate exStateFresh "c1" (MigrationTarget.patchTarget "p1") false false 3).2.contracts
          "c1" =
        some { exContract with current_wasm_hash := exPatch.bytecode_hash,
                               current_version := exPatch.target_version } ∧
      ((migrate exStateFresh "c1"
            (MigrationTarget.patchTarget "p1") false false 3).2.migrations.filter
          (fun r => is_applied_for r "c1" "p1")).length = 1 :=
  ⟨⟨by decide, by decide, by decide, by decide⟩,
    migrate_apply_idempotent exStateFresh "c1" "p1" exContract exPatch 3 4
      (by decide) (by decide) (by decide) (by decide)⟩

/-- C3 counterexample: in a state where a non-dry-run Applied record already
exists for (c1, p1), `migrate` with simulate_fail=true and dry_run=false hits
the idempotence check first and returns that record, whose outcome is
Applied, not Failed — so the claim as universally stated is false. -/
theorem migrate_simulate_fail_counterexample :
    (migrate exState "c1" (MigrationTarget.patchTarget "p1") false true 7).1 =
        Except.ok exApplied ∧
      exApplied.outcome = Outcome.Applied ∧ Outcome.Applied ≠ Outcome.Failed := by
  refine ⟨rfl, rfl, by decide⟩

/-- C3 amended: provided validation passes (contract and patch exist, the
contract is in the cohort) and no non-dry-run Applied record already exists
for the pair, `migrate` with simulate_fail=true and dry_run=false returns a
MigrationRecord with outcome=Failed; the same holds unconditionally for
explicit-artifact targets; and in every case (any state, any target) such a
call leaves the Contract records exactly as before. -/
theorem migrate_simulate_fail_amended
    (st : RegistryState) (cid pid : String) (con : Contract) (pa : Patch) (t : Nat)
    (hc : st.contracts cid = some con) (hp : st.patches pid = some pa)
    (hcoh : in_cohort cid pid pa.rollout_percentage = true)
    (hnone : applied_record? st.migrations cid pid = none) :
    ((migrate st cid (MigrationTarget.patchTarget pid) false true t).1 =
        Except.ok ⟨cid, some pid, false, true, Outcome.Failed, t⟩) ∧
    (∀ wasm_hash version : String,
        (migrate st cid (MigrationTarget.artifact wasm_hash version) false true t).1 =
          Except.ok ⟨cid, none, false, true, Outcome.Failed, t⟩) ∧
    (∀ (st' : RegistryState) (c : String) (target : MigrationTarget) (t' : Nat),
        ((migrate st' c target false true t').2).contracts = st'.contracts) := by
  refine ⟨?_, ?_, fun st' c target t' => migrate_simulate_fail_contracts_frame st' c target t'⟩
  · rw [migrate_fresh_simulate_fail st cid pid con pa t hc hp hnone hcoh]
  · intro wasm_hash version
    simp [migrate, hc, record_migration]

/-- Witness for the amended C3 at a concrete fresh registry state. -/
theorem migrate_simulate_fail_amended_witness :
    (exStateFresh.contracts "c1" = some exContract ∧
      exStateFresh.patches "p1" = some exPatch ∧
      in_cohort "c1" "p1" exPatch.rollout_percentage = true ∧
      applied_record? exStateFresh.migrations "c1" "p1" = none) ∧
    ((migrate exStateFresh "c1" (MigrationTarget.patchTarget "p1") false true 7).1 =
        Except.ok ⟨"c1", some "p1", false, true, Outcome.Failed, 7⟩) ∧
    (∀ wasm_hash version : String,
        (migrate exStateFresh "c1"
            (MigrationTarget.artifact wasm_hash version) false true 7).1 =
          Except.ok ⟨"c1", none, false, true, Outcome.Failed, 7⟩) ∧
    (∀ (st' : RegistryState) (c : String) (target : MigrationTarget) (t' : Nat),
        ((migrate st' c target false true t').2).contracts = st'.contracts) :=
  ⟨⟨by decide, by decide, by decide, by decide⟩,
    migrate_simulate_fail_amended exStateFresh "c1" "p1" exContract exPatch 7
      (by decide) (by decide) (by decide) (by decide)⟩

/-- C4: `migrate` with dry_run=true never writes a Contract record —
regardless of simulate_fail, the target, and the state — and appends no
MigrationRecord other than possibly one tagged Previewed. -/
theorem migrate_dry_run_frame (st : RegistryState) (cid : String)
    (target : MigrationTarget) (sf : Bool) (t : Nat) :
    ((migrate st cid target true sf t).2).contracts = st.contracts ∧
    (((migrate st cid target true sf t).2).migrations = st.migrations ∨
      ∃ mr : MigrationRecord,
        ((migrate st cid target true sf t).2).migrations = mr :: st.migrations ∧
        mr.outcome = Outcome.Previewed) := by
  cases hc : st.contracts cid with
  | none => simp [migrate, hc]
  | some con =>
    cases target with
    | patchTarget pid =>
      cases hp : st.patches pid with
      | none => simp [migrate, hc, hp]
      | some pa =>
        cases hprior : applied_record? st.migrations cid pid with
        | some prior => simp [migrate, hc, hp, hprior]
        | none =>
          refine ⟨?_, Or.inr ⟨⟨cid, some pid, true, sf, Outcome.Previewed, t⟩, ?_, rfl⟩⟩ <;>
            simp [migrate, hc, hp, hprior, record_migration]
    | artifact wasm_hash version =>
      refine ⟨?_, Or.inr ⟨⟨cid, none, true, sf, Outcome.Previewed, t⟩, ?_, rfl⟩⟩ <;>
        simp [migrate, hc, record_migration]

/-- C5: for an existing patch, `set_rollout` with a value strictly below the
current rollout percentage fails with RolloutRegression and leaves the whole
state (hence the patch record) unchanged; `set_rollout` to 100 succeeds and
moves the patch status to Complete. -/
theorem set_rollout_spec (st : RegistryState) (pid : String) (pa : Patch)
    (hp : st.patches pid = some pa) :
    (∀ nr : Nat, nr < pa.rollout_percentage →
        set_rollout st pid nr = (Except.error CoreError.RolloutRegression, st)) ∧
    (pa.rollout_percentage ≤ 100 →
        ∃ pa' : Patch, (set_rollout st pid 100).1 = Except.ok pa' ∧
          pa'.status = PatchStatus.Complete ∧ pa'.rollout_percentage = 100) := by
  constructor
  · intro nr hlt
    simp only [set_rollout, hp]
    rw [if_pos hlt]
  · intro h100
    refine ⟨{ pa with rollout_percentage := 100, status := PatchStatus.Complete }, ?_, rfl, rfl⟩
    simp only [set_rollout, hp]
    rw [if_neg (by omega), if_neg (by omega)]
    rfl

/-- Witness for C5 at a concrete registry state. -/
theorem set_rollout_spec_witness :
    (exState.patches "p1" = some exPatch ∧ 25 < exPatch.rollout_percentage ∧
      exPatch.rollout_percentage ≤ 100) ∧
    set_rollout exState "p1" 25 = (Except.error CoreError.RolloutRegression, exState) ∧
    ∃ pa' : Patch, (set_rollout exState "p1" 100).1 = Except.ok pa' ∧
      pa'.status = PatchStatus.Complete ∧ pa'.rollout_percentage = 100 :=
  ⟨⟨by decide, by decide, by decide⟩,
    (set_rollout_spec exState "p1" exPatch (by decide)).1 25 (by decide),
    (set_rollout_spec exState "p1" exPatch (by decide)).2 (by decide)⟩

/- ## Theorems: HTTP handlers -/

lemma paginate_ok (page? limit? : Option Int) (h : 1 ≤ page?.getD 1) :
    paginate page? limit? =
      Except.ok ⟨page?.getD 1, rust_clamp (limit?.getD 20) 1 100,
        (page?.getD 1 - 1) * rust_clamp (limit?.getD 20) 1 100⟩ := by
  unfold paginate
  rw [if_neg (by omega)]

lemma rust_clamp_bounds (x lo hi : Int) (h : lo ≤ hi) :
    lo ≤ rust_clamp x lo hi ∧ rust_clamp x lo hi ≤ hi := by
  unfold rust_clamp
  split_ifs <;> omega

lemma rust_clamp_eq_self (x lo hi : Int) (h1 : lo ≤ x) (h2 : x ≤ hi) :
    rust_clamp x lo hi = x := by
  unfold rust_clamp
  split_ifs <;> omega

/-- C7: the contract search builds its SQL by string interpolation of user
input: whenever `list_contracts` produces its SQL with the query or the
category parameter equal to s, the executed SELECT text contains s verbatim
(it is concatenated into the ILIKE / equality clause, not bound). -/
theorem list_contracts_sql_interpolation (p : ContractSearchParams) (s : String)
    (sqls : String × String) (h : list_contracts p = Except.ok sqls) :
    (p.query = some s → ∃ pre suf : String, sqls.1 = pre ++ s ++ suf) ∧
    (p.category = some s → ∃ pre suf : String, sqls.1 = pre ++ s ++ suf) := by
  unfold list_contracts at h
  cases hpg : paginate p.page p.limit with
  | error e => rw [hpg] at h; exact absurd h (by simp)
  | ok pg =>
    rw [hpg] at h
    have hs : sqls = build_queries p pg.limit pg.offset := (Except.ok.inj h).symm
    subst hs
    constructor
    · intro hq
      refine ⟨"SELECT * FROM contracts WHERE 1=1" ++ " AND (name ILIKE '%",
        "%' OR description ILIKE '%" ++ s ++ "%')" ++ verified_filter p.verified_only ++
          category_filter p.category ++ " ORDER BY created_at DESC LIMIT " ++
          toString pg.limit ++ " OFFSET " ++ toString pg.offset, ?_⟩
      simp only [build_queries, search_filter, hq, String.append_assoc]
    · intro hcat
      refine ⟨"SELECT * FROM contracts WHERE 1=1" ++ search_filter p.query ++
          verified_filter p.verified_only ++ " AND category = '",
        "'" ++ " ORDER BY created_at DESC LIMIT " ++ toString pg.limit ++
          " OFFSET " ++ toString pg.offset, ?_⟩
      simp only [build_queries, category_filter, hcat, String.append_assoc]

/-- Witness for C7 at concrete search parameters. -/
theorem list_contracts_sql_interpolation_witness :
    (list_contracts exParams = Except.ok (build_queries exParams 20 0) ∧
      exParams.query = some "usdc" ∧ exParams.category = some "token") ∧
    (∃ pre suf : String, (build_queries exParams 20 0).1 = pre ++ "usdc" ++ suf) ∧
    (∃ pre suf : String, (build_queries exParams 20 0).1 = pre ++ "token" ++ suf) :=
  ⟨⟨rfl, rfl, rfl⟩,
    (list_contracts_sql_interpolation exParams "usdc" (build_queries exParams 20 0) rfl).1 rfl,
    (list_contracts_sql_interpolation exParams "token" (build_queries exParams 20 0) rfl).2 rfl⟩

/-- C8: `get_contract` returns the row when it exists and fails with a 404
ContractNotFound error when it does not; with the database modelled as a map
from id to row, these are the only outcomes. -/
theorem get_contract_spec (db : Nat → Option ContractRow) (id : Nat) :
    (∀ c : ContractRow, db id = some c → get_contract db id = Except.ok c) ∧
    (db id = none →
      get_contract db id =
        Except.error
          ⟨404, "ContractNotFound", "No contract found with ID: " ++ toString id⟩) := by
  constructor
  · intro c hc
    simp [get_contract, hc]
  · intro h
    simp [get_contract, h, ApiError.not_found]

/-- Witness for C8 on a concrete two-row table. -/
theorem get_contract_spec_witness :
    (exDb 1 = some exRow ∧ exDb 3 = none) ∧
    get_contract exDb 1 = Except.ok exRow ∧
    get_contract exDb 3 =
      Except.error ⟨404, "ContractNotFound", "No contract found with ID: " ++ toString 3⟩ :=
  ⟨⟨rfl, rfl⟩, (get_contract_spec exDb 1).1 exRow rfl, (get_contract_spec exDb 3).2 rfl⟩

/-- C9: `list_contracts` pagination: a page value below 1 (after defaulting
to 1) is rejected with InvalidPagination and no SQL is produced; otherwise
the effective limit is the supplied limit clamped to [1,100] (20 when
absent, unchanged when already in range) and the offset is
(page - 1) * limit. -/
theorem list_contracts_pagination (p : ContractSearchParams) :
    (p.page.getD 1 < 1 →
      list_contracts p =
        Except.error (ApiError.bad_request "InvalidPagination" "page must be >= 1")) ∧
    (1 ≤ p.page.getD 1 →
      ∃ pg : Pagination,
        paginate p.page p.limit = Except.ok pg ∧
        list_contracts p = Except.ok (build_queries p pg.limit pg.offset) ∧
        pg.page = p.page.getD 1 ∧
        1 ≤ pg.limit ∧ pg.limit ≤ 100 ∧
        (p.limit = none → pg.limit = 20) ∧
        (∀ l : Int, p.limit = some l → 1 ≤ l → l ≤ 100 → pg.limit = l) ∧
        pg.offset = (pg.page - 1) * pg.limit) := by
  constructor
  · intro hlt
    unfold list_contracts paginate
    rw [if_pos hlt]
  · intro hge
    refine ⟨⟨p.page.getD 1, rust_clamp (p.limit.getD 20) 1 100,
      (p.page.getD 1 - 1) * rust_clamp (p.limit.getD 20) 1 100⟩,
      paginate_ok p.page p.limit hge, ?_, rfl, ?_, ?_, ?_, ?_, rfl⟩
    · unfold list_contracts
      rw [paginate_ok p.page p.limit hge]
    · exact (rust_clamp_bounds (p.limit.getD 20) 1 100 (by omega)).1
    · exact (rust_clamp_bounds (p.limit.getD 20) 1 100 (by omega)).2
    · intro hnone
      rw [hnone]
      rfl
    · intro l hl h1 h100
      rw [hl]
      exact rust_clamp_eq_self l 1 100 h1 h100

/-- Witness for C9: a page of 0 is rejected; default parameters paginate to
limit 20, offset 0. -/
theorem list_contracts_pagination_witness :
    (exParamsBadPage.page.getD 1 < 1 ∧
      list_contracts exParamsBadPage =
        Except.error (ApiError.bad_request "InvalidPagination" "page must be >= 1")) ∧
    (1 ≤ exParams.page.getD 1 ∧
      ∃ pg : Pagination,
        paginate exParams.page exParams.limit = Except.ok pg ∧
        list_contracts exParams = Except.ok (build_queries exParams pg.limit pg.offset) ∧
        pg.page = exParams.page.getD 1 ∧
        1 ≤ pg.limit ∧ pg.limit ≤ 100 ∧
        (exParams.limit = none → pg.limit = 20) ∧
        (∀ l : Int, exParams.limit = some l → 1 ≤ l → l ≤ 100 → pg.limit = l) ∧
        pg.offset = (pg.page - 1) * pg.limit) :=
  ⟨⟨by decide, (list_contracts_pagination exParamsBadPage).1 (by decide)⟩,
    ⟨by decide, (list_contracts_pagination exParams).2 (by decide)⟩⟩

/-- C10: `get_contract_abi` distinguishes the two missing cases: 404
ContractNotFound when there is no row, 404 AbiNotFound when the row's abi
column is NULL, and the ABI JSON otherwise. -/
theorem get_contract_abi_spec (db : Nat → Option ContractRow) (id : Nat) :
    (db id = none →
      get_contract_abi db id =
        Except.error
          ⟨404, "ContractNotFound", "No contract found with ID: " ++ toString id⟩) ∧
    (∀ row : ContractRow, db id = some row → row.abi = none →
      get_contract_abi db id =
        Except.error ⟨404, "AbiNotFound", "Contract has no ABI"⟩) ∧
    (∀ (row : ContractRow) (a : String), db id = some row → row.abi = some a →
      get_contract_abi db id = Except.ok a) := by
  refine ⟨fun h => ?_, fun row hr ha => ?_, fun row a hr ha => ?_⟩
  · simp [get_contract_abi, h, ApiError.not_found]
  · simp [get_contract_abi, hr, ha, ApiError.not_found]
  · simp [get_contract_abi, hr, ha]

/-- Witness for C10 on a concrete two-row table. -/
theorem get_contract_abi_spec_witness :
    (exDb 3 = none ∧ exDb 2 = some exRowNoAbi ∧ exRowNoAbi.abi = none ∧
      exDb 1 = some exRow ∧ exRow.abi = some "[]") ∧
    get_contract_abi exDb 3 =
      Except.error ⟨404, "ContractNotFound", "No contract found with ID: " ++ toString 3⟩ ∧
    get_contract_abi exDb 2 = Except.error ⟨404, "AbiNotFound", "Contract has no ABI"⟩ ∧
    get_contract_abi exDb 1 = Except.ok "[]" :=
  ⟨⟨rfl, rfl, rfl, rfl, rfl⟩,
    (get_contract_abi_spec exDb 3).1 rfl,
    (get_contract_abi_spec exDb 2).2.1 exRowNoAbi rfl rfl,
    (get_contract_abi_spec exDb 1).2.2 exRow "[]" rfl rfl⟩
